import Mathlib

/-!
Verification of the event core of the Event-Driven-Backtesting-Engine
repository: the event taxonomy of `src/events/events.py` and the FIFO
sequence-stamping channel of `src/core/event_queue.py`, shallowly embedded
in Lean 4.  Python machine-level details that the embedded claims depend on
(chained assignment, frozen-dataclass attribute assignment, in-place dict
mutation, `uuid4` default factories) are modelled explicitly where a claim
turns on them.
-/

/-- Python exception classes that the embedded code can raise. -/
inductive PyError where
  | typeError
  | indexError
  | frozenInstanceError
deriving DecidableEq

/-- Embeds `EventType(str, Enum)` of `src/events/events.py`: the nine tags. -/
inductive EventType where
  | MARKET_DATA
  | SIGNAL
  | ORDER
  | FILL
  | POSITION
  | PNL
  | RISK
  | CORPORATE_ACTION
  | LATENCY
deriving DecidableEq

/-- Embeds `SignalAction(str, Enum)`. -/
inductive SignalAction where
  | BUY
  | SELL
  | HOLD
deriving DecidableEq

/-- Embeds `OrderSide(str, Enum)`. -/
inductive OrderSide where
  | BUY
  | SELL
deriving DecidableEq

/-- Embeds `OrderType(str, Enum)`. -/
inductive OrderType where
  | MARKET
  | LIMIT
deriving DecidableEq

/-- Embeds `OrderIntent(str, Enum)`. -/
inductive OrderIntent where
  | CREATE
  | MODIFY
  | CANCEL
deriving DecidableEq

/-- Embeds `RiskSeverity(str, Enum)`. -/
inductive RiskSeverity where
  | INFO
  | WARN
  | BREACH
deriving DecidableEq

/-- Embeds `RiskAction(str, Enum)`. -/
inductive RiskAction where
  | NONE
  | REDUCE
  | HALT
  | CANCEL_ORDERS
deriving DecidableEq

/-- Embeds `CorporateActionType(str, Enum)`. -/
inductive CorporateActionType where
  | SPLIT
  | DIVIDEND
  | MERGER
  | SPINOFF
deriving DecidableEq

/-- Embeds `LatencyStage(str, Enum)`. -/
inductive LatencyStage where
  | DATA
  | SIGNAL
  | ORDER
  | FILL
deriving DecidableEq

/-- A `datetime` instant, modelled abstractly: the core never computes on
timestamps, it only carries them. -/
abbrev Timestamp := Nat

/-- A Python `float` field value.  The core never performs float arithmetic;
float fields are carried unchanged, so they are modelled as uninterpreted
literals (the literal text identifies the value). -/
inductive PyFloat where
  | mk (lit : String)
deriving DecidableEq

/-- A `Dict[str, Any]` value, by its entries.  Values are modelled as strings
because the core treats them as opaque (it never reads or interprets them). -/
abbrev Dict := List (String × String)

/-- The variant-specific payload fields of the nine event dataclasses of
`src/events/events.py`, one constructor per subclass of `Event`, each field in
source order with the source name. -/
inductive Variant where
  | marketData (symbol : String) (data_type : String) (payload : Dict)
  | signal (symbol : String) (action : SignalAction) (strength : PyFloat)
      (strategy_id : String) (signal_id : String)
  | order (symbol : String) (side : OrderSide) (qty : PyFloat)
      (order_type : OrderType) (limit_price : Option PyFloat)
      (intent : OrderIntent) (order_id : String)
      (parent_signal_id : Option String)
  | fill (order_id : String) (symbol : String) (side : OrderSide)
      (qty_filled : PyFloat) (fill_price : PyFloat) (commission : PyFloat)
      (slippage : PyFloat) (fill_id : String) (remaining_qty : Option PyFloat)
  | position (portfolio_id : String) (symbol : String)
      (position_qty : PyFloat) (avg_price : PyFloat)
  | pnl (portfolio_id : String) (cash : PyFloat) (equity : PyFloat)
      (realized_pnl : PyFloat) (unrealized_pnl : PyFloat)
  | risk (portfolio_id : String) (severity : RiskSeverity) (rule_id : String)
      (action_required : RiskAction) (symbol : Option String)
      (target_qty : Option PyFloat) (reason : String)
  | corporateAction (symbol : String) (action_type : CorporateActionType)
      (ts_effective : Timestamp) ( ratio : Option PyFloat)
      (cash_amount : Option PyFloat) (source : String)
  | latency (stage : LatencyStage) (ts_ready : Timestamp) (latency_ms : Int)
      (delayed_event_id : String)
deriving DecidableEq

/-- An event instance: the shared envelope of the base `Event` dataclass
(`event_type`, `ts_event`, `event_id`, `seq`, `metadata`) together with the
payload fields of the concrete variant subclass the instance belongs to. -/
structure Event where
  event_type : EventType
  ts_event : Timestamp
  event_id : String
  seq : Option Nat
  metadata : Dict
  variant : Variant
deriving DecidableEq

/-- Embeds `dataclasses.replace(event, seq=n)` as used by `EventQueue.put`:
a new instance with `seq` replaced and every other field copied.  (`replace`
re-invokes the dataclass constructor with the old values of all `init` fields;
the `init=False` field `event_type` is re-filled from the class default, which
on every variant instance equals the old value.) -/
def replaceSeq (e : Event) (n : Nat) : Event :=
  { e with seq := some n }

/-- The attribute state an `EventQueue` object would hold after `__init__`:
`none` marks an attribute that was never assigned. -/
structure InitAttrs where
  q_attr : Option (List Event)
  next_seq_attr : Option Nat
deriving DecidableEq

/-- Whether the `typing.Deque` special generic alias supports item assignment
(`Deque[Event] = ...` as an assignment target).  The `typing` aliases define
`__class_getitem__` behaviour for subscription in expressions but their type
defines no `__setitem__`, so a subscripted-assignment target raises
`TypeError`. -/
def typingDequeSupportsItemAssignment : Bool := false

/-- Embeds the body of `EventQueue.__init__` statement by statement.  Its first
statement is the chained assignment `self._q = Deque[Event] = deque()`, which
evaluates `deque()` once and then assigns the targets left to right: the
attribute assignment `self._q = deque()` succeeds, and then the item
assignment `Deque[Event] = deque()` is attempted on the `typing.Deque` alias.
Because that alias supports no item assignment, `TypeError` is raised there and
the second statement `self._next_seq = 0` is never reached. -/
def eventQueueInitRun : Except PyError InitAttrs :=
  let afterFirstTarget : InitAttrs := { q_attr := some [], next_seq_attr := none }
  if typingDequeSupportsItemAssignment then
    Except.ok { afterFirstTarget with next_seq_attr := some 0 }
  else
    Except.error PyError.typeError

/-- The state of an `EventQueue` object: the deque `self._q` (head at the list
head, tail at the list end) and the counter `self._next_seq`.  The methods
below embed the method bodies of `src/core/event_queue.py`; the state a
completed `__init__` intends to establish is `initState`. -/
structure EventQueue where
  q : List Event
  next_seq : Nat
deriving DecidableEq

/-- The queue state the two assignments of `__init__` write:
`self._q = deque()` and `self._next_seq = 0`. -/
def EventQueue.initState : EventQueue :=
  { q := [], next_seq := 0 }

/-- Embeds `EventQueue.put`: build the stamped copy with
`replace(event, seq=self._next_seq)`, increment `self._next_seq`, append the
stamped copy to the tail of `self._q`, and return it. -/
def EventQueue.put (s : EventQueue) (e : Event) : Event × EventQueue :=
  let event_with_seq := replaceSeq e s.next_seq
  (event_with_seq, { q := s.q ++ [event_with_seq], next_seq := s.next_seq + 1 })

/-- Embeds `EventQueue.get`: `self._q.popleft()`.  On an empty deque,
`popleft` raises `IndexError` before touching any state, so the error branch
returns the state unchanged; otherwise the head element is removed and
returned. -/
def EventQueue.get (s : EventQueue) : Except PyError Event × EventQueue :=
  match s.q with
  | [] => (Except.error PyError.indexError, s)
  | e :: rest => (Except.ok e, { s with q := rest })

/-- Embeds `EventQueue.empty`: `len(self._q) == 0`. -/
def EventQueue.empty (s : EventQueue) : Bool :=
  s.q.length == 0

/-- Embeds `EventQueue.__len__`: `len(self._q)`; the size of the queue. -/
def EventQueue.len (s : EventQueue) : Nat :=
  s.q.length

/-- Embeds `EventQueue.peek`: `self._q[0] if self._q else None`. -/
def EventQueue.peek (s : EventQueue) : Option Event :=
  s.q.head?

/-- One call on the queue, for reasoning about arbitrary interleavings of the
two mutating operations. -/
inductive QOp where
  | enq (e : Event)
  | deq
deriving DecidableEq

/-- Run a list of calls against a queue state and collect, in call order, the
stamped events that the `put` calls return (`get` results are discarded, and a
`get` on an empty queue raises and leaves the state unchanged). -/
def runPuts : EventQueue → List QOp → List Event
  | _, [] => []
  | s, QOp.enq e :: rest =>
      let r := s.put e
      r.1 :: runPuts r.2 rest
  | s, QOp.deq :: rest => runPuts (s.get).2 rest

/-- The number of `put` calls in a call list. -/
def countPuts : List QOp → Nat
  | [] => 0
  | QOp.enq _ :: rest => countPuts rest + 1
  | QOp.deq :: rest => countPuts rest

/-- The list `[some s, some (s+1), ..., some (s+n-1)]`: the sequence numbers a
queue whose counter stands at `s` hands out over its next `n` stampings. -/
def expectedSeqs : Nat → Nat → List (Option Nat)
  | _, 0 => []
  | s, n + 1 => some s :: expectedSeqs (s + 1) n

/-- Run a list of `put` calls in order; return the stamped events in call
order together with the final queue state. -/
def putAll : EventQueue → List Event → List Event × EventQueue
  | s, [] => ([], s)
  | s, e :: es =>
      let r := s.put e
      let rest := putAll r.2 es
      (r.1 :: rest.1, rest.2)

/-- The events `es` stamped with consecutive sequence numbers starting at
`s`, as consecutive `put` calls would stamp them. -/
def stampFrom (s : Nat) : List Event → List Event
  | [] => []
  | e :: es => replaceSeq e s :: stampFrom (s + 1) es

/-- Run `n` `get` calls in order, collecting the successfully dequeued events;
stop if a call raises. -/
def getAll : EventQueue → Nat → List Event × EventQueue
  | s, 0 => ([], s)
  | s, n + 1 =>
      match s.get with
      | (Except.ok e, s2) =>
          let rest := getAll s2 n
          (e :: rest.1, rest.2)
      | (Except.error _, s2) => ([], s2)

/-- Modelled from the spec: the state of the process-wide `uuid4` generator
(the `uuid` library is outside this repository).  The spec calls `event_id` a
value from a collision-resistant random identifier scheme, generated fresh at
each construction and never reused; this is idealized as a supply that yields
a distinct string at each successive state. -/
abbrev IdGen := Nat

/-- Modelled from the spec: `uuid4().hex`, one fresh identifier per generator
state, distinct states yielding distinct strings. -/
def uuid4hex (g : IdGen) : String :=
  String.mk (List.replicate (g + 1) 'u')

/-- Evaluate one `field(default_factory=lambda: uuid4().hex)` slot of a
dataclass constructor call: a caller-supplied argument is used as given and
draws nothing from the generator; an omitted argument runs the factory,
advancing the generator. -/
def runFactory (g : IdGen) (supplied : Option String) : String × IdGen :=
  match supplied with
  | some s => (s, g)
  | none => (uuid4hex g, g + 1)

/-- The arguments of one constructor call of one of the nine event variant
dataclasses, in the field order of the generated `__init__` (inherited
envelope fields first, then the subclass fields).  `event_type` is declared
`field(init=False)` on every variant, so the generated `__init__` takes no
such parameter and no constructor call can supply it.  A field whose default
is a `uuid4` factory (`event_id`, `signal_id`, `order_id`, `fill_id`) or a
`datetime.utcnow` factory (`ts_effective`, `ts_ready`) is given as an
`Option`, `none` meaning the argument was omitted so the factory runs; a
field with a plain default (for example `seq=None`, `symbol=""`,
`metadata=dict()`) is given by its value, omission being identical to passing
the default value. -/
inductive CtorArgs where
  | marketData (ts_event : Timestamp) (event_id : Option String)
      (seq : Option Nat) (metadata : Dict) (symbol : String)
      (data_type : String) (payload : Dict)
  | signal (ts_event : Timestamp) (event_id : Option String)
      (seq : Option Nat) (metadata : Dict) (symbol : String)
      (action : SignalAction) (strength : PyFloat) (strategy_id : String)
      (signal_id : Option String)
  | order (ts_event : Timestamp) (event_id : Option String)
      (seq : Option Nat) (metadata : Dict) (symbol : String)
      (side : OrderSide) (qty : PyFloat) (order_type : OrderType)
      (limit_price : Option PyFloat) (intent : OrderIntent)
      (order_id : Option String) (parent_signal_id : Option String)
  | fill (ts_event : Timestamp) (event_id : Option String)
      (seq : Option Nat) (metadata : Dict) (order_id : String)
      (symbol : String) (side : OrderSide) (qty_filled : PyFloat)
      (fill_price : PyFloat) (commission : PyFloat) (slippage : PyFloat)
      (fill_id : Option String) (remaining_qty : Option PyFloat)
  | position (ts_event : Timestamp) (event_id : Option String)
      (seq : Option Nat) (metadata : Dict) (portfolio_id : String)
      (symbol : String) (position_qty : PyFloat) (avg_price : PyFloat)
  | pnl (ts_event : Timestamp) (event_id : Option String)
      (seq : Option Nat) (metadata : Dict) (portfolio_id : String)
      (cash : PyFloat) (equity : PyFloat) (realized_pnl : PyFloat)
      (unrealized_pnl : PyFloat)
  | risk (ts_event : Timestamp) (event_id : Option String)
      (seq : Option Nat) (metadata : Dict) (portfolio_id : String)
      (severity : RiskSeverity) (rule_id : String)
      (action_required : RiskAction) (symbol : Option String)
      (target_qty : Option PyFloat) (reason : String)
  | corporateAction (ts_event : Timestamp) (event_id : Option String)
      (seq : Option Nat) (metadata : Dict) (symbol : String)
      (action_type : CorporateActionType) (ts_effective : Option Timestamp)
      ( ratio : Option PyFloat) (cash_amount : Option PyFloat)
      (source : String)
  | latency (ts_event : Timestamp) (event_id : Option String)
      (seq : Option Nat) (metadata : Dict) (stage : LatencyStage)
      (ts_ready : Option Timestamp) (latency_ms : Int)
      (delayed_event_id : String)
deriving DecidableEq

/-- The tag that the variant named by a constructor call carries as its
`event_type` class default. -/
def ctorTag : CtorArgs → EventType
  | CtorArgs.marketData .. => EventType.MARKET_DATA
  | CtorArgs.signal .. => EventType.SIGNAL
  | CtorArgs.order .. => EventType.ORDER
  | CtorArgs.fill .. => EventType.FILL
  | CtorArgs.position .. => EventType.POSITION
  | CtorArgs.pnl .. => EventType.PNL
  | CtorArgs.risk .. => EventType.RISK
  | CtorArgs.corporateAction .. => EventType.CORPORATE_ACTION
  | CtorArgs.latency .. => EventType.LATENCY

/-- The `seq` argument of a constructor call (its default is `None`). -/
def seqArg : CtorArgs → Option Nat
  | CtorArgs.marketData _ _ sq _ _ _ _ => sq
  | CtorArgs.signal _ _ sq _ _ _ _ _ _ => sq
  | CtorArgs.order _ _ sq _ _ _ _ _ _ _ _ _ => sq
  | CtorArgs.fill _ _ sq _ _ _ _ _ _ _ _ _ _ => sq
  | CtorArgs.position _ _ sq _ _ _ _ _ => sq
  | CtorArgs.pnl _ _ sq _ _ _ _ _ _ => sq
  | CtorArgs.risk _ _ sq _ _ _ _ _ _ _ _ => sq
  | CtorArgs.corporateAction _ _ sq _ _ _ _ _ _ _ => sq
  | CtorArgs.latency _ _ sq _ _ _ _ _ => sq

/-- The `event_id` argument of a constructor call, `none` when omitted. -/
def eventIdArg : CtorArgs → Option String
  | CtorArgs.marketData _ eid _ _ _ _ _ => eid
  | CtorArgs.signal _ eid _ _ _ _ _ _ _ => eid
  | CtorArgs.order _ eid _ _ _ _ _ _ _ _ _ _ => eid
  | CtorArgs.fill _ eid _ _ _ _ _ _ _ _ _ _ _ => eid
  | CtorArgs.position _ eid _ _ _ _ _ _ => eid
  | CtorArgs.pnl _ eid _ _ _ _ _ _ _ => eid
  | CtorArgs.risk _ eid _ _ _ _ _ _ _ _ _ => eid
  | CtorArgs.corporateAction _ eid _ _ _ _ _ _ _ _ => eid
  | CtorArgs.latency _ eid _ _ _ _ _ _ => eid

/-- Embeds the generated `__init__` of each variant dataclass: every supplied
argument is stored as given; the `event_id` factory runs first (it is the
earliest factory field in field order), then any variant-level `uuid4` factory
(`signal_id`, `order_id`, `fill_id`); a `datetime.utcnow` factory fills in the
current instant `now`.  Returns the constructed instance and the advanced
generator state. -/
def construct (a : CtorArgs) (g : IdGen) (now : Timestamp) : Event × IdGen :=
  match a with
  | CtorArgs.marketData ts eid sq md sym dt pl =>
      let r := runFactory g eid
      ({ event_type := EventType.MARKET_DATA, ts_event := ts, event_id := r.1,
         seq := sq, metadata := md,
         variant := Variant.marketData sym dt pl }, r.2)
  | CtorArgs.signal ts eid sq md sym act strg strat sgid =>
      let r := runFactory g eid
      let r2 := runFactory r.2 sgid
      ({ event_type := EventType.SIGNAL, ts_event := ts, event_id := r.1,
         seq := sq, metadata := md,
         variant := Variant.signal sym act strg strat r2.1 }, r2.2)
  | CtorArgs.order ts eid sq md sym side qty ot lp intent oid psid =>
      let r := runFactory g eid
      let r2 := runFactory r.2 oid
      ({ event_type := EventType.ORDER, ts_event := ts, event_id := r.1,
         seq := sq, metadata := md,
         variant := Variant.order sym side qty ot lp intent r2.1 psid }, r2.2)
  | CtorArgs.fill ts eid sq md oid sym side qf fp comm slip fid rq =>
      let r := runFactory g eid
      let r2 := runFactory r.2 fid
      ({ event_type := EventType.FILL, ts_event := ts, event_id := r.1,
         seq := sq, metadata := md,
         variant := Variant.fill oid sym side qf fp comm slip r2.1 rq }, r2.2)
  | CtorArgs.position ts eid sq md pid sym pq ap =>
      let r := runFactory g eid
      ({ event_type := EventType.POSITION, ts_event := ts, event_id := r.1,
         seq := sq, metadata := md,
         variant := Variant.position pid sym pq ap }, r.2)
  | CtorArgs.pnl ts eid sq md pid cash eq rp up =>
      let r := runFactory g eid
      ({ event_type := EventType.PNL, ts_event := ts, event_id := r.1,
         seq := sq, metadata := md,
         variant := Variant.pnl pid cash eq rp up }, r.2)
  | CtorArgs.risk ts eid sq md pid sev rid act sym tq rsn =>
      let r := runFactory g eid
      ({ event_type := EventType.RISK, ts_event := ts, event_id := r.1,
         seq := sq, metadata := md,
         variant := Variant.risk pid sev rid act sym tq rsn }, r.2)
  | CtorArgs.corporateAction ts eid sq md sym aty tse rat ca src =>
      let r := runFactory g eid
      ({ event_type := EventType.CORPORATE_ACTION, ts_event := ts,
         event_id := r.1, seq := sq, metadata := md,
         variant := Variant.corporateAction sym aty (tse.getD now) rat ca src },
       r.2)
  | CtorArgs.latency ts eid sq md stg tsr lm did =>
      let r := runFactory g eid
      ({ event_type := EventType.LATENCY, ts_event := ts, event_id := r.1,
         seq := sq, metadata := md,
         variant := Variant.latency stg (tsr.getD now) lm did }, r.2)

/-- A heap of Python dict objects, addressed by index, for stating what
in-place mutation of a mapping does to the instances that reference it.
Slots of a frozen dataclass instance hold references; the dict object a
`metadata` or `payload` slot refers to lives here. -/
structure Heap where
  dicts : List Dict
deriving DecidableEq

/-- Dereference a dict address. -/
def heapReadDict (h : Heap) (a : Nat) : Dict :=
  h.dicts.getD a []

/-- Plain `d[k] = v` on a dict value: overwrite the entry for `k` when it is
present, otherwise append a new entry. -/
def dictStore (d : Dict) (k v : String) : Dict :=
  if d.any (fun p => p.1 = k) then
    d.map (fun p => if p.1 = k then (k, v) else p)
  else
    d ++ [(k, v)]

/-- In-place `dict.__setitem__` on the dict object at address `a`: ordinary
dicts define `__setitem__`, so this succeeds and every reference to the same
object observes the change. -/
def heapDictSetItem (h : Heap) (a : Nat) (k v : String) : Heap :=
  { dicts := h.dicts.set a (dictStore (heapReadDict h a) k v) }

/-- The reference-level view of a constructed event variant instance used for
the mutation claims: the immutable slot bindings, with the `metadata` slot
holding the address of its dict object. -/
structure EventObj where
  seq : Option Nat
  metadataAddr : Nat
deriving DecidableEq

/-- The mapping an event instance presents as its `metadata` field under a
given heap. -/
def observedMetadata (h : Heap) (e : EventObj) : Dict :=
  heapReadDict h e.metadataAddr

/-- Embeds attribute assignment on an event variant instance: the dataclasses
are declared `frozen=True`, so the generated `__setattr__` raises
`FrozenInstanceError` for every attribute name (and `slots=True` additionally
leaves no `__dict__` to smuggle new attributes into).  The instance is left
unchanged. -/
def eventSetattr (_e : EventObj) (_name : String) (_v : String) :
    Except PyError Unit :=
  Except.error PyError.frozenInstanceError

/-- A concrete stamped event (a `MarketDataEvent` whose `seq` was already
set to 5), used as input for queue scenarios. -/
def stampedSample : Event :=
  { event_type := EventType.MARKET_DATA, ts_event := 0, event_id := "idA",
    seq := some 5, metadata := [],
    variant := Variant.marketData "AAPL" "BAR" [] }

/-- A concrete unstamped event (`seq` unset), as a producer would hand to
`put`. -/
def unstampedSample : Event :=
  { event_type := EventType.SIGNAL, ts_event := 1, event_id := "idB",
    seq := none, metadata := [],
    variant := Variant.signal "AAPL" SignalAction.BUY (PyFloat.mk "1.0")
      "default" "sig1" }

/-- A second concrete unstamped event. -/
def unstampedSample2 : Event :=
  { event_type := EventType.ORDER, ts_event := 2, event_id := "idC",
    seq := none, metadata := [("k", "v")],
    variant := Variant.order "AAPL" OrderSide.BUY (PyFloat.mk "10.0")
      OrderType.MARKET none OrderIntent.CREATE "ord1" none }

/-- Dequeuing, successfully or not, never touches the counter. -/
theorem get_next_seq (s : EventQueue) : (s.get).2.next_seq = s.next_seq := by
  cases hq : s.q <;> simp [EventQueue.get, hq]

/-- C1: every call to the `EventQueue` constructor raises `TypeError` (the
chained assignment `self._q = Deque[Event] = deque()` attempts item assignment
on the `typing.Deque` generic alias), so `__init__` never completes: no
attribute state is ever returned to a caller, hence no queue operation is ever
reachable on a successfully constructed instance. -/
theorem c1_ctor_always_raises_type_error :
    eventQueueInitRun = Except.error PyError.typeError ∧
    ∀ a : InitAttrs, eventQueueInitRun ≠ Except.ok a := by
  refine ⟨rfl, ?_⟩
  intro a h
  simp [eventQueueInitRun, typingDequeSupportsItemAssignment] at h

/-- C2 (counterexample): `put` does not reject an event whose `seq` is already
set.  On the concrete event `stampedSample`, whose `seq` is already `some 5`,
`put` on a fresh queue returns normally (the embedded body is total, it has no
raising branch) and silently re-stamps the copy with `seq = some 0`. -/
theorem c2_put_restamps_instead_of_rejecting :
    stampedSample.seq = some 5 ∧
    EventQueue.initState.put stampedSample
      = ({ stampedSample with seq := some 0 },
         { q := [{ stampedSample with seq := some 0 }], next_seq := 1 }) :=
  ⟨rfl, rfl⟩

/-- C2 (amended): enqueuing an event whose `seq` is already set is not
rejected; `put` always succeeds and silently re-stamps, returning a copy whose
`seq` is the current counter value and appending that copy to the store. -/
theorem c2_amended_put_never_rejects (s : EventQueue) (e : Event) (n : Nat)
    (_h : e.seq = some n) :
    (s.put e).1.seq = some s.next_seq ∧
    (s.put e).2.q = s.q ++ [(s.put e).1] :=
  ⟨rfl, rfl⟩

/-- C2 (witness): the amended statement at the concrete stamped event. -/
theorem c2_amended_witness :
    stampedSample.seq = some 5 ∧
    (EventQueue.initState.put stampedSample).1.seq = some 0 ∧
    (EventQueue.initState.put stampedSample).2.q
      = [] ++ [(EventQueue.initState.put stampedSample).1] :=
  ⟨rfl, (c2_amended_put_never_rejects EventQueue.initState stampedSample 5 rfl).1,
   (c2_amended_put_never_rejects EventQueue.initState stampedSample 5 rfl).2⟩

/-- C5: `get` on an empty queue raises `IndexError` synchronously (the model
is a total function, nothing blocks or waits), and afterwards the size is
still 0 and the sequence counter is unchanged: the failed call alters no
queue state. -/
theorem c5_get_on_empty_raises_and_preserves (s : EventQueue)
    (h : s.len = 0) :
    s.get = (Except.error PyError.indexError, s) ∧
    (s.get).2.len = 0 ∧ (s.get).2.next_seq = s.next_seq := by
  have hq : s.q = [] := by
    simpa [EventQueue.len, List.length_eq_zero] using h
  refine ⟨?_, ?_, ?_⟩ <;> simp [EventQueue.get, hq, EventQueue.len]

/-- C5 (witness): the statement at the concrete empty queue state. -/
theorem c5_witness :
    EventQueue.initState.len = 0 ∧
    EventQueue.initState.get
      = (Except.error PyError.indexError, EventQueue.initState) ∧
    (EventQueue.initState.get).2.len = 0 ∧
    (EventQueue.initState.get).2.next_seq = 0 :=
  ⟨rfl, (c5_get_on_empty_raises_and_preserves EventQueue.initState rfl).1,
   (c5_get_on_empty_raises_and_preserves EventQueue.initState rfl).2.1,
   (c5_get_on_empty_raises_and_preserves EventQueue.initState rfl).2.2⟩

/-- C6: on an event with `seq` unset, `put` builds a new instance that is
identical to the argument in every field except `seq` (which becomes the
counter value); in particular the returned instance differs from the
argument, whose own `seq` field stays unset.  The embedding is by pure
values, mirroring that `dataclasses.replace` constructs a fresh object and
the frozen dataclass offers no mutating operation on the argument. -/
theorem c6_put_copies_all_fields_but_seq (s : EventQueue) (e : Event)
    (h : e.seq = none) :
    (s.put e).1 = { e with seq := some s.next_seq } ∧
    (s.put e).1.event_type = e.event_type ∧
    (s.put e).1.ts_event = e.ts_event ∧
    (s.put e).1.event_id = e.event_id ∧
    (s.put e).1.metadata = e.metadata ∧
    (s.put e).1.variant = e.variant ∧
    (s.put e).1.seq = some s.next_seq ∧
    (s.put e).1 ≠ e := by
  refine ⟨rfl, rfl, rfl, rfl, rfl, rfl, rfl, ?_⟩
  intro he
  have hs : (s.put e).1.seq = e.seq := congrArg Event.seq he
  rw [h] at hs
  simp [EventQueue.put, replaceSeq] at hs

/-- C6 (witness): the statement at a concrete unstamped event. -/
theorem c6_witness :
    unstampedSample.seq = none ∧
    (EventQueue.initState.put unstampedSample).1
      = { unstampedSample with seq := some 0 } ∧
    (EventQueue.initState.put unstampedSample).1 ≠ unstampedSample :=
  ⟨rfl,
   (c6_put_copies_all_fields_but_seq EventQueue.initState unstampedSample rfl).1,
   (c6_put_copies_all_fields_but_seq EventQueue.initState unstampedSample
      rfl).2.2.2.2.2.2.2⟩

/-- C7: on a non-empty queue, `peek` returns the head event without removing
anything (it takes the state and returns only an event, and the following
`get` still finds and returns that same event); on an empty queue `peek`
returns `None` without raising (the embedded body is total). -/
theorem c7_peek_is_nondestructive_head (s : EventQueue) :
    (s.q = [] → s.peek = none) ∧
    (s.q ≠ [] → ∃ e, s.peek = some e ∧ (s.get).1 = Except.ok e ∧
      (s.get).2.q = s.q.tail ∧ (s.get).2.next_seq = s.next_seq) := by
  constructor
  · intro h0
    simp [EventQueue.peek, h0]
  · intro hne
    cases hq : s.q with
    | nil => exact absurd hq hne
    | cons ev rest =>
        refine ⟨ev, ?_, ?_, ?_, ?_⟩ <;>
          simp [EventQueue.peek, EventQueue.get, hq]

/-- C7 (witness): the statement at a concrete one-element queue and at the
concrete empty queue. -/
theorem c7_witness :
    (∃ e, EventQueue.peek { q := [stampedSample], next_seq := 1 } = some e ∧
      (EventQueue.get { q := [stampedSample], next_seq := 1 }).1
        = Except.ok e ∧
      (EventQueue.get { q := [stampedSample], next_seq := 1 }).2.q
        = List.tail [stampedSample] ∧
      (EventQueue.get { q := [stampedSample], next_seq := 1 }).2.next_seq
        = 1) ∧
    EventQueue.initState.peek = none :=
  ⟨(c7_peek_is_nondestructive_head { q := [stampedSample], next_seq := 1 }).2
      (by simp),
   (c7_peek_is_nondestructive_head EventQueue.initState).1 rfl⟩

/-- Over any call list, the stamped events returned by the `put` calls carry
the consecutive sequence numbers starting at the initial counter value. -/
theorem runPuts_seqs (ops : List QOp) : ∀ s : EventQueue,
    (runPuts s ops).map Event.seq = expectedSeqs s.next_seq (countPuts ops) := by
  induction ops with
  | nil => intro s; simp [runPuts, countPuts, expectedSeqs]
  | cons op rest ih =>
      intro s
      cases op with
      | enq e =>
          simp [runPuts, countPuts, expectedSeqs, ih, EventQueue.put,
            replaceSeq]
      | deq =>
          simp [runPuts, countPuts, ih, get_next_seq]

/-- The expected stamp list is the consecutive range shifted by the start. -/
theorem expectedSeqs_eq_range (n : Nat) : ∀ s : Nat,
    expectedSeqs s n = (List.range n).map (fun i => some (s + i)) := by
  induction n with
  | zero => intro s; simp [expectedSeqs]
  | succ n ih =>
      intro s
      have hf : ((fun i => some (s + i)) ∘ Nat.succ)
          = fun i => some ((s + 1) + i) := by
        funext i
        simp only [Function.comp_apply]
        congr 1
        omega
      calc expectedSeqs s (n + 1)
          = some s :: expectedSeqs (s + 1) n := rfl
        _ = some s :: (List.range n).map (fun i => some ((s + 1) + i)) := by
              rw [ih]
        _ = some s :: (List.range n).map ((fun i => some (s + i)) ∘ Nat.succ) := by
              rw [hf]
        _ = (List.range (n + 1)).map (fun i => some (s + i)) := by
              rw [List.range_succ_eq_map, List.map_cons, List.map_map]
              simp

/-- C3: on a freshly initialized queue, for every finite interleaving of
enqueues and dequeues, the `seq` values assigned to the events returned by the
enqueues are exactly 0, 1, 2, ... in call order, with no duplicates and no
gaps, regardless of the interleaved dequeues. -/
theorem c3_seqs_are_exactly_zero_one_two (ops : List QOp) :
    (runPuts EventQueue.initState ops).map Event.seq
      = (List.range (countPuts ops)).map some := by
  rw [runPuts_seqs, expectedSeqs_eq_range]
  simp [EventQueue.initState]

/-- Stamping preserves length. -/
theorem stampFrom_length (s : Nat) (es : List Event) :
    (stampFrom s es).length = es.length := by
  induction es generalizing s with
  | nil => rfl
  | cons e es ih => simp [stampFrom, ih]

/-- What a block of `put` calls computes: the stamped copies in order, all of
them appended to the store, and the counter advanced by the block length. -/
theorem putAll_state (es : List Event) : ∀ s : EventQueue,
    putAll s es = (stampFrom s.next_seq es,
      { q := s.q ++ stampFrom s.next_seq es,
        next_seq := s.next_seq + es.length }) := by
  induction es with
  | nil => intro s; simp [putAll, stampFrom]
  | cons e es ih =>
      intro s
      simp [putAll, EventQueue.put, stampFrom, ih, replaceSeq,
        List.append_assoc]
      omega

/-- Draining a queue by as many `get` calls as it holds events returns the
stored list in order and leaves the store empty, the counter untouched. -/
theorem getAll_exact (l : List Event) : ∀ c : Nat,
    getAll { q := l, next_seq := c } l.length = (l, { q := [], next_seq := c }) := by
  induction l with
  | nil => intro c; rfl
  | cons e rest ih => intro c; simp [getAll, EventQueue.get, ih]

/-- C4: starting from a queue with an empty store, N enqueues of `e1..eN`
followed by N dequeues return exactly the stamped copies of `e1..eN`, in that
order (FIFO). -/
theorem c4_fifo_n_in_n_out (s : EventQueue) (es : List Event)
    (h : s.q = []) :
    (putAll s es).1 = stampFrom s.next_seq es ∧
    (getAll (putAll s es).2 es.length).1 = (putAll s es).1 := by
  have hs := putAll_state es s
  rw [h] at hs
  constructor
  · rw [hs]
  · rw [hs]
    simp only [List.nil_append]
    rw [← stampFrom_length s.next_seq es, getAll_exact]

/-- C4 (witness): the statement at the fresh queue with two concrete
events. -/
theorem c4_witness :
    (putAll EventQueue.initState [unstampedSample, unstampedSample2]).1
      = stampFrom 0 [unstampedSample, unstampedSample2] ∧
    (getAll (putAll EventQueue.initState
        [unstampedSample, unstampedSample2]).2 2).1
      = (putAll EventQueue.initState [unstampedSample, unstampedSample2]).1 :=
  ⟨(c4_fifo_n_in_n_out EventQueue.initState
      [unstampedSample, unstampedSample2] rfl).1,
   (c4_fifo_n_in_n_out EventQueue.initState
      [unstampedSample, unstampedSample2] rfl).2⟩

/-- C8 (counterexample): the metadata mapping carried by a constructed event
can be changed after construction.  Starting from a heap holding the freshly
constructed empty metadata dict of a concrete instance, an ordinary in-place
`d[k] = v` on that dict succeeds (dicts are mutable and `frozen=True` only
guards attribute rebinding), and the mapping the instance presents as its
`metadata` field has changed. -/
theorem c8_metadata_contents_mutable :
    observedMetadata
        (heapDictSetItem { dicts := [[]] } 0 "note" "edited")
        { seq := none, metadataAddr := 0 }
      ≠ observedMetadata { dicts := [[]] } { seq := none, metadataAddr := 0 } := by
  decide

/-- C8 (amended): every attempt to rebind a field of a constructed event
variant instance fails with `FrozenInstanceError` (so no field binding can
change after construction), but the contents of the mutable `metadata` (or
payload) dict object a field refers to can still be changed in place after
construction. -/
theorem c8_amended_frozen_bindings_mutable_dicts :
    (∀ (e : EventObj) (name v : String),
        eventSetattr e name v = Except.error PyError.frozenInstanceError) ∧
    observedMetadata
        (heapDictSetItem { dicts := [[]] } 0 "note" "edited")
        { seq := none, metadataAddr := 0 }
      = [("note", "edited")] :=
  ⟨fun _ _ _ => rfl, by decide⟩

/-- C9 (counterexample): `seq` does not start unset on every newly constructed
instance: `seq` is an ordinary defaulted parameter of the generated
`__init__`, so the concrete constructor call `MarketDataEvent(ts_event=0,
seq=3)` succeeds and yields an instance whose `seq` is already set. -/
theorem c9_seq_settable_at_construction :
    (construct (CtorArgs.marketData 0 none (some 3) [] "AAPL" "BAR" [])
        0 0).1.seq = some 3 ∧
    (construct (CtorArgs.marketData 0 none (some 3) [] "AAPL" "BAR" [])
        0 0).1.seq ≠ none :=
  ⟨rfl, by decide⟩

/-- C9 (amended): for each of the nine variants, every construction sets
`event_type` to exactly the tag matching that variant, and `event_type`
cannot be supplied by the caller (it is `field(init=False)`, so the generated
`__init__` has no such parameter: no value of `CtorArgs` carries one); `seq`
starts unset on every construction that does not supply the optional `seq`
argument, whose default is `None` — but `seq` is caller-suppliable. -/
theorem c9_amended_tag_fixed_seq_defaults_unset (a : CtorArgs) (g : IdGen)
    (now : Timestamp) :
    (construct a g now).1.event_type = ctorTag a ∧
    (seqArg a = none → (construct a g now).1.seq = none) := by
  cases a <;> exact ⟨rfl, fun h => h⟩

/-- C9 (witness): the amended statement at a concrete `SignalEvent`
construction that leaves `seq` to its default. -/
theorem c9_amended_witness :
    (construct (CtorArgs.signal 2 none none [] "AAPL" SignalAction.BUY
        (PyFloat.mk "1.0") "default" none) 0 0).1.event_type
      = EventType.SIGNAL ∧
    (construct (CtorArgs.signal 2 none none [] "AAPL" SignalAction.BUY
        (PyFloat.mk "1.0") "default" none) 0 0).1.seq = none :=
  ⟨(c9_amended_tag_fixed_seq_defaults_unset
      (CtorArgs.signal 2 none none [] "AAPL" SignalAction.BUY
        (PyFloat.mk "1.0") "default" none) 0 0).1,
   (c9_amended_tag_fixed_seq_defaults_unset
      (CtorArgs.signal 2 none none [] "AAPL" SignalAction.BUY
        (PyFloat.mk "1.0") "default" none) 0 0).2 rfl⟩

/-- A factory evaluation never rewinds the generator. -/
theorem runFactory_ge (g : IdGen) (o : Option String) :
    g ≤ (runFactory g o).2 := by
  cases o with
  | none =>
      show g ≤ g + 1
      exact Nat.le_succ g
  | some s =>
      show g ≤ g
      exact Nat.le_refl g

/-- A construction never rewinds the generator. -/
theorem construct_gen_ge (a : CtorArgs) (g : IdGen) (now : Timestamp) :
    g ≤ (construct a g now).2 := by
  cases a with
  | marketData _ eid _ _ _ _ _ => exact runFactory_ge g eid
  | signal _ eid _ _ _ _ _ _ sgid =>
      exact le_trans (runFactory_ge g eid)
        (runFactory_ge (runFactory g eid).2 sgid)
  | order _ eid _ _ _ _ _ _ _ _ oid _ =>
      exact le_trans (runFactory_ge g eid)
        (runFactory_ge (runFactory g eid).2 oid)
  | fill _ eid _ _ _ _ _ _ _ _ _ fid _ =>
      exact le_trans (runFactory_ge g eid)
        (runFactory_ge (runFactory g eid).2 fid)
  | position _ eid _ _ _ _ _ _ => exact runFactory_ge g eid
  | pnl _ eid _ _ _ _ _ _ _ => exact runFactory_ge g eid
  | risk _ eid _ _ _ _ _ _ _ _ _ => exact runFactory_ge g eid
  | corporateAction _ eid _ _ _ _ _ _ _ _ => exact runFactory_ge g eid
  | latency _ eid _ _ _ _ _ _ => exact runFactory_ge g eid

/-- A construction that runs the `event_id` factory advances the generator
strictly. -/
theorem construct_gen_gt (a : CtorArgs) (g : IdGen) (now : Timestamp)
    (h : eventIdArg a = none) : g + 1 ≤ (construct a g now).2 := by
  cases a with
  | marketData _ eid _ _ _ _ _ =>
      simp only [eventIdArg] at h
      subst h
      exact Nat.le_refl (g + 1)
  | signal _ eid _ _ _ _ _ _ sgid =>
      simp only [eventIdArg] at h
      subst h
      exact runFactory_ge (g + 1) sgid
  | order _ eid _ _ _ _ _ _ _ _ oid _ =>
      simp only [eventIdArg] at h
      subst h
      exact runFactory_ge (g + 1) oid
  | fill _ eid _ _ _ _ _ _ _ _ _ fid _ =>
      simp only [eventIdArg] at h
      subst h
      exact runFactory_ge (g + 1) fid
  | position _ eid _ _ _ _ _ _ =>
      simp only [eventIdArg] at h
      subst h
      exact Nat.le_refl (g + 1)
  | pnl _ eid _ _ _ _ _ _ _ =>
      simp only [eventIdArg] at h
      subst h
      exact Nat.le_refl (g + 1)
  | risk _ eid _ _ _ _ _ _ _ _ _ =>
      simp only [eventIdArg] at h
      subst h
      exact Nat.le_refl (g + 1)
  | corporateAction _ eid _ _ _ _ _ _ _ _ =>
      simp only [eventIdArg] at h
      subst h
      exact Nat.le_refl (g + 1)
  | latency _ eid _ _ _ _ _ _ =>
      simp only [eventIdArg] at h
      subst h
      exact Nat.le_refl (g + 1)

/-- A construction that omits `event_id` gets the factory value drawn at the
incoming generator state. -/
theorem construct_eid (a : CtorArgs) (g : IdGen) (now : Timestamp)
    (h : eventIdArg a = none) : (construct a g now).1.event_id = uuid4hex g := by
  cases a <;> (simp only [eventIdArg] at h; subst h; rfl)

/-- Distinct generator states yield distinct identifiers. -/
theorem uuid4hex_inj (g1 g2 : IdGen) (h : uuid4hex g1 = uuid4hex g2) :
    g1 = g2 := by
  have hl : g1 + 1 = g2 + 1 := by
    have hc := congrArg String.length h
    simpa [uuid4hex, String.length] using hc
  exact Nat.succ_injective hl

/-- C10 (counterexample): two events constructed independently do not always
get distinct `event_id` values: `event_id` is an ordinary defaulted parameter
of the generated `__init__`, so two constructor calls that both pass
`event_id="x"` (the second threading the generator state left by the first,
which the first never advanced) produce equal ids even though they are
independent constructions with identical arguments. -/
theorem c10_supplied_ids_can_collide :
    (construct (CtorArgs.marketData 0 (some "x") none [] "AAPL" "BAR" [])
        0 0).1.event_id
      = (construct (CtorArgs.marketData 0 (some "x") none [] "AAPL" "BAR" [])
          (construct (CtorArgs.marketData 0 (some "x") none [] "AAPL" "BAR" [])
            0 0).2 0).1.event_id := rfl

/-- C10 (amended): for any two constructions, of the same or of different
variants, that both leave `event_id` to its default factory, the two
generated `event_id` values differ — the second construction draws from the
generator state the first left behind, and the supply never repeats — even if
every other constructor argument is identical. -/
theorem c10_amended_generated_ids_distinct (a b : CtorArgs) (g : IdGen)
    (t1 t2 : Timestamp) (ha : eventIdArg a = none)
    (hb : eventIdArg b = none) :
    (construct a g t1).1.event_id
      ≠ (construct b (construct a g t1).2 t2).1.event_id := by
  intro h
  rw [construct_eid a g t1 ha,
    construct_eid b (construct a g t1).2 t2 hb] at h
  have hg := construct_gen_gt a g t1 ha
  have heq := uuid4hex_inj g (construct a g t1).2 h
  rw [← heq] at hg
  exact Nat.not_succ_le_self g hg

/-- C10 (witness): the amended statement at two concrete constructions of
different variants, both leaving `event_id` to the factory. -/
theorem c10_amended_witness :
    (construct (CtorArgs.marketData 0 none none [] "AAPL" "BAR" [])
        0 0).1.event_id
      ≠ (construct (CtorArgs.position 1 none none [] "default" "AAPL"
            (PyFloat.mk "0.0") (PyFloat.mk "0.0"))
          (construct (CtorArgs.marketData 0 none none [] "AAPL" "BAR" [])
            0 0).2 0).1.event_id :=
  c10_amended_generated_ids_distinct
    (CtorArgs.marketData 0 none none [] "AAPL" "BAR" [])
    (CtorArgs.position 1 none none [] "default" "AAPL"
      (PyFloat.mk "0.0") (PyFloat.mk "0.0"))
    0 0 0 rfl rfl
